import Mathlib

/-!
Verification of the weak-lang-items pass
(`compiler/rustc_passes/src/weak_lang_items.rs`).

The pass is embedded shallowly: the compiler context queries consumed by
`check_crate` and `verify` become fields of an explicit `Ctxt` structure,
diagnostics become values of an inductive type, and the two functions are
translated directly from the source.
-/

namespace WeakLangItems

/-- Modelled from the spec: `HookId` is "an opaque enumerable identifier for
one runtime hook", a "finite, closed set known at compiler build time"
(`rustc_hir::LangItem` is outside this fragment). The four weakly-overridable
hooks named by the source are listed, plus a few non-weak lang items so that
identifiers without a catalog entry exist. -/
inductive LangItem where
  | PanicImpl
  | EhPersonality
  | EhCatchTypeinfo
  | Oom
  | Start
  | Sized
  | DropInPlace
  deriving DecidableEq

/-- The crate types matched in `verify` (`rustc_session::config::CrateType`,
declared outside this fragment; the six variants are exactly the ones the
source's `match` covers). -/
inductive CrateType where
  | Executable
  | Dylib
  | Rlib
  | Staticlib
  | Cdylib
  | ProcMacro
  deriving DecidableEq

/-- The diagnostics the pass can emit: the E0264 "unknown external lang item"
error from `check_crate`, and the three structured errors from `verify`. -/
inductive Diagnostic where
  | unknownLangItem (name : String) (span : Nat)
  | missingPanicHandler
  | missingAllocErrorHandler
  | missingLangItem (name : String)
  deriving DecidableEq

/-- Modelled from the spec: a foreign (externally-declared) item of the current
unit, carrying an optional hook-name attribute and a source span. The field
`langAttr` is the result of `lang_items::extract` on the item's attributes. -/
structure ForeignItem where
  langAttr : Option String
  span : Nat
  deriving DecidableEq

/-- Modelled from the spec: `lang_items::LanguageItems` as used by this pass —
a table of hooks already resolved to a definition (`require` consults it,
`eh_personality()` / `eh_catch_typeinfo()` test membership) together with the
`missing` vector the pass pushes to. -/
structure LanguageItems where
  defined : List LangItem
  missing : List LangItem
  deriving DecidableEq

/-- Modelled from the spec: the compiler-context queries this pass consumes,
passed explicitly. `crates` and `missing_lang_items` are the dependency
metadata ("for each transitively linked unit, its previously computed
MissingSet"); `required` is the external mandatoriness predicate
(`rustc_middle::middle::lang_items::required`); `default_alloc_error_handler`
is the allocation-error-handler relaxation feature flag. -/
structure Ctxt where
  crate_types : List CrateType
  target_os : String
  default_alloc_error_handler : Bool
  foreign_items : List ForeignItem
  crates : List Nat
  missing_lang_items : Nat → List LangItem
  required : LangItem → Bool

/-- Modelled from the spec: the catalog `WEAK_ITEMS_REFS` mapping
external-facing names to the weakly-overridable hooks
(`rustc_hir::weak_lang_items`, outside this fragment). -/
def WEAK_ITEMS_REFS : List (String × LangItem) :=
  [("panic_impl", LangItem.PanicImpl),
   ("eh_personality", LangItem.EhPersonality),
   ("eh_catch_typeinfo", LangItem.EhCatchTypeinfo),
   ("oom", LangItem.Oom)]

/-- `WEAK_ITEMS_REFS.get(&name)`: resolve a hook name through the catalog. -/
def weakItemsGet (name : String) : Option LangItem :=
  (WEAK_ITEMS_REFS.find? (fun p => p.1 == name)).map Prod.snd

/-- `items.require(it)` succeeds exactly when the item is present in the
table; `require items it = true` models `Ok`, `false` models `Err`. -/
def require (items : LanguageItems) (it : LangItem) : Bool :=
  items.defined.contains it

/-- Lines 19-24 of the source: the implicit injection step. `EhPersonality`
is pushed onto `missing` when it has no definition; on `emscripten` targets,
`EhCatchTypeinfo` likewise. -/
def injectImplicit (tcx : Ctxt) (items : LanguageItems) : LanguageItems :=
  let items1 :=
    if !(require items LangItem.EhPersonality) then
      { items with missing := items.missing ++ [LangItem.EhPersonality] }
    else items
  if tcx.target_os == "emscripten" && !(require items1 LangItem.EhCatchTypeinfo) then
    { items1 with missing := items1.missing ++ [LangItem.EhCatchTypeinfo] }
  else items1

/-- Lines 27-46 of the source, body of the foreign-item loop: an item with no
lang attribute is skipped; a recognized weak hook that `require` cannot
satisfy is pushed onto `missing`; an unrecognized name yields one E0264
diagnostic and nothing else. -/
def scanForeignItem (acc : LanguageItems × List Diagnostic) (fi : ForeignItem) :
    LanguageItems × List Diagnostic :=
  match fi.langAttr with
  | none => acc
  | some name =>
    match weakItemsGet name with
    | some item =>
      if require acc.1 item then acc
      else ({ acc.1 with missing := acc.1.missing ++ [item] }, acc.2)
    | none => (acc.1, acc.2 ++ [Diagnostic.unknownLangItem name fi.span])

/-- The foreign-item loop of `check_crate`, folded from an accumulator. -/
def scanForeignFrom (acc : LanguageItems × List Diagnostic)
    (fis : List ForeignItem) : LanguageItems × List Diagnostic :=
  fis.foldl scanForeignItem acc

/-- `FxHashSet::insert` on a duplicate-free list representation. -/
def insertItem (s : List LangItem) (it : LangItem) : List LangItem :=
  if s.contains it then s else s ++ [it]

/-- Lines 66-71 of the source: the set `missing` that `verify` checks
membership in, the union over all dependency crates of their
`missing_lang_items` lists. -/
def globalMissing (tcx : Ctxt) : List LangItem :=
  tcx.crates.foldl (fun s cnum => (tcx.missing_lang_items cnum).foldl insertItem s) []

/-- The per-crate-type arm of the `needs_check` match (lines 54-61). -/
def needsCheckKind : CrateType → Bool
  | CrateType.Dylib => true
  | CrateType.ProcMacro => true
  | CrateType.Cdylib => true
  | CrateType.Executable => true
  | CrateType.Staticlib => true
  | CrateType.Rlib => false

/-- Lines 54-61 of the source: whether any requested crate type forces the
check. -/
def needs_check (tcx : Ctxt) : Bool :=
  tcx.crate_types.any needsCheckKind

/-- Lines 73-85 of the source, body of the catalog loop: the diagnostics one
`(name, item)` catalog entry contributes. -/
def diagnoseEntry (tcx : Ctxt) (items : LanguageItems) (missing : List LangItem)
    (p : String × LangItem) : List Diagnostic :=
  if missing.contains p.2 && tcx.required p.2 && !(require items p.2) then
    if p.2 = LangItem.PanicImpl then [Diagnostic.missingPanicHandler]
    else if p.2 = LangItem.Oom then
      if !tcx.default_alloc_error_handler then [Diagnostic.missingAllocErrorHandler]
      else []
    else [Diagnostic.missingLangItem p.1]
  else []

/-- `verify` (lines 51-86): return nothing when no requested crate type needs
the check; otherwise aggregate the dependency missing lists and walk the
catalog, emitting diagnostics. -/
def verify (tcx : Ctxt) (items : LanguageItems) : List Diagnostic :=
  if !(needs_check tcx) then []
  else
    WEAK_ITEMS_REFS.foldl (fun ds p => ds ++ diagnoseEntry tcx items (globalMissing tcx) p) []

/-- `check_crate` (lines 15-49): implicit injection, foreign-item scan, then
`verify`; the result is the updated `LanguageItems` together with every
diagnostic emitted, in emission order. -/
def check_crate (tcx : Ctxt) (items : LanguageItems) :
    LanguageItems × List Diagnostic :=
  let items1 := injectImplicit tcx items
  let sr := scanForeignFrom (items1, []) tcx.foreign_items
  (sr.1, sr.2 ++ verify tcx sr.1)

lemma mem_insertItem {s : List LangItem} {it x : LangItem} :
    x ∈ insertItem s it ↔ x ∈ s ∨ x = it := by
  unfold insertItem
  by_cases h : s.contains it = true
  · rw [if_pos h]
    have hm : it ∈ s := List.elem_iff.mp h
    constructor
    · exact Or.inl
    · rintro (hx | rfl)
      · exact hx
      · exact hm
  · rw [if_neg h]
    simp [List.mem_append]

lemma nodup_insertItem {s : List LangItem} {it : LangItem} (h : s.Nodup) :
    (insertItem s it).Nodup := by
  unfold insertItem
  by_cases hc : s.contains it = true
  · rw [if_pos hc]
    exact h
  · rw [if_neg hc]
    refine List.Nodup.append h (List.nodup_singleton it) ?_
    intro a ha hb
    simp only [List.mem_singleton] at hb
    subst hb
    exact hc (List.elem_iff.mpr ha)

lemma mem_foldl_insertItem (l : List LangItem) (s : List LangItem) (x : LangItem) :
    x ∈ l.foldl insertItem s ↔ x ∈ s ∨ x ∈ l := by
  induction l generalizing s with
  | nil => simp
  | cons a t ih =>
    simp only [List.foldl_cons, ih, mem_insertItem, List.mem_cons]
    tauto

lemma nodup_foldl_insertItem (l : List LangItem) (s : List LangItem) (h : s.Nodup) :
    (l.foldl insertItem s).Nodup := by
  induction l generalizing s with
  | nil => exact h
  | cons a t ih => exact ih _ (nodup_insertItem h)

lemma mem_globalMissing (tcx : Ctxt) (x : LangItem) :
    x ∈ globalMissing tcx ↔ ∃ c ∈ tcx.crates, x ∈ tcx.missing_lang_items c := by
  unfold globalMissing
  have key : ∀ (l : List Nat) (s : List LangItem),
      x ∈ l.foldl (fun s cnum => (tcx.missing_lang_items cnum).foldl insertItem s) s ↔
        x ∈ s ∨ ∃ c ∈ l, x ∈ tcx.missing_lang_items c := by
    intro l
    induction l with
    | nil => simp
    | cons a t ih =>
      intro s
      simp only [List.foldl_cons, ih, mem_foldl_insertItem, List.mem_cons]
      constructor
      · rintro ((hs | ha) | ⟨c, hc, hx⟩)
        · exact Or.inl hs
        · exact Or.inr ⟨a, Or.inl rfl, ha⟩
        · exact Or.inr ⟨c, Or.inr hc, hx⟩
      · rintro (hs | ⟨c, (rfl | hc), hx⟩)
        · exact Or.inl (Or.inl hs)
        · exact Or.inl (Or.inr hx)
        · exact Or.inr ⟨c, hc, hx⟩
  simpa using key tcx.crates []

lemma nodup_globalMissing (tcx : Ctxt) : (globalMissing tcx).Nodup := by
  unfold globalMissing
  have key : ∀ (l : List Nat) (s : List LangItem), s.Nodup →
      (l.foldl (fun s cnum => (tcx.missing_lang_items cnum).foldl insertItem s) s).Nodup := by
    intro l
    induction l with
    | nil => exact fun s h => h
    | cons a t ih =>
      intro s hs
      exact ih _ (nodup_foldl_insertItem _ _ hs)
  exact key tcx.crates [] List.nodup_nil

lemma diagnoseEntry_congr (tcx1 tcx2 : Ctxt) (items1 items2 : LanguageItems)
    (m1 m2 : List LangItem) (p : String × LangItem)
    (hm : m1.contains p.2 = m2.contains p.2)
    (hr : tcx1.required p.2 = tcx2.required p.2)
    (hf : tcx1.default_alloc_error_handler = tcx2.default_alloc_error_handler)
    (hd : require items1 p.2 = require items2 p.2) :
    diagnoseEntry tcx1 items1 m1 p = diagnoseEntry tcx2 items2 m2 p := by
  unfold diagnoseEntry
  rw [hm, hr, hf, hd]

lemma foldl_append_congr {α : Type} (f g : α → List Diagnostic) (l : List α)
    (h : ∀ p ∈ l, f p = g p) (init : List Diagnostic) :
    l.foldl (fun ds p => ds ++ f p) init = l.foldl (fun ds p => ds ++ g p) init := by
  induction l generalizing init with
  | nil => rfl
  | cons a t ih =>
    simp only [List.foldl_cons]
    rw [h a (List.mem_cons_self a t)]
    exact ih (fun p hp => h p (List.mem_cons_of_mem a hp)) _

lemma needs_check_congr (tcx1 tcx2 : Ctxt) (hct : tcx1.crate_types = tcx2.crate_types) :
    needs_check tcx1 = needs_check tcx2 := by
  unfold needs_check
  rw [hct]

lemma verify_congr (tcx1 tcx2 : Ctxt) (items1 items2 : LanguageItems)
    (hct : tcx1.crate_types = tcx2.crate_types)
    (hf : tcx1.default_alloc_error_handler = tcx2.default_alloc_error_handler)
    (hr : ∀ p ∈ WEAK_ITEMS_REFS, tcx1.required p.2 = tcx2.required p.2)
    (hd : ∀ p ∈ WEAK_ITEMS_REFS, require items1 p.2 = require items2 p.2)
    (hgm : ∀ p ∈ WEAK_ITEMS_REFS,
      (globalMissing tcx1).contains p.2 = (globalMissing tcx2).contains p.2) :
    verify tcx1 items1 = verify tcx2 items2 := by
  unfold verify
  rw [needs_check_congr tcx1 tcx2 hct]
  by_cases hnc : needs_check tcx2 = true
  · simp only [hnc, Bool.not_true, if_false]
    exact foldl_append_congr _ _ _
      (fun p hp => diagnoseEntry_congr tcx1 tcx2 items1 items2 _ _ p
        (hgm p hp) (hr p hp) hf (hd p hp)) []
  · simp only [Bool.not_eq_true] at hnc
    simp [hnc]

lemma verify_eq (tcx : Ctxt) (items : LanguageItems) (h : needs_check tcx = true) :
    verify tcx items =
      diagnoseEntry tcx items (globalMissing tcx) ("panic_impl", LangItem.PanicImpl)
      ++ diagnoseEntry tcx items (globalMissing tcx) ("eh_personality", LangItem.EhPersonality)
      ++ diagnoseEntry tcx items (globalMissing tcx) ("eh_catch_typeinfo", LangItem.EhCatchTypeinfo)
      ++ diagnoseEntry tcx items (globalMissing tcx) ("oom", LangItem.Oom) := by
  simp [verify, h, WEAK_ITEMS_REFS]

lemma count_dE_panic (tcx : Ctxt) (items : LanguageItems) (m : List LangItem) (d : Diagnostic) :
    (diagnoseEntry tcx items m ("panic_impl", LangItem.PanicImpl)).count d =
      (if (m.contains LangItem.PanicImpl && tcx.required LangItem.PanicImpl
          && !(require items LangItem.PanicImpl)) = true
       then List.count d [Diagnostic.missingPanicHandler] else 0) := by
  unfold diagnoseEntry
  rw [apply_ite (List.count d)]
  rfl

lemma count_dE_ehp (tcx : Ctxt) (items : LanguageItems) (m : List LangItem) (d : Diagnostic) :
    (diagnoseEntry tcx items m ("eh_personality", LangItem.EhPersonality)).count d =
      (if (m.contains LangItem.EhPersonality && tcx.required LangItem.EhPersonality
          && !(require items LangItem.EhPersonality)) = true
       then List.count d [Diagnostic.missingLangItem "eh_personality"] else 0) := by
  unfold diagnoseEntry
  rw [apply_ite (List.count d)]
  rfl

lemma count_dE_ehcti (tcx : Ctxt) (items : LanguageItems) (m : List LangItem) (d : Diagnostic) :
    (diagnoseEntry tcx items m ("eh_catch_typeinfo", LangItem.EhCatchTypeinfo)).count d =
      (if (m.contains LangItem.EhCatchTypeinfo && tcx.required LangItem.EhCatchTypeinfo
          && !(require items LangItem.EhCatchTypeinfo)) = true
       then List.count d [Diagnostic.missingLangItem "eh_catch_typeinfo"] else 0) := by
  unfold diagnoseEntry
  rw [apply_ite (List.count d)]
  rfl

lemma count_dE_oom (tcx : Ctxt) (items : LanguageItems) (m : List LangItem) (d : Diagnostic) :
    (diagnoseEntry tcx items m ("oom", LangItem.Oom)).count d =
      (if (m.contains LangItem.Oom && tcx.required LangItem.Oom && !(require items LangItem.Oom)
          && !tcx.default_alloc_error_handler) = true
       then List.count d [Diagnostic.missingAllocErrorHandler] else 0) := by
  unfold diagnoseEntry
  cases hc : (m.contains LangItem.Oom && tcx.required LangItem.Oom
      && !(require items LangItem.Oom)) <;>
  cases hfl : tcx.default_alloc_error_handler <;>
  simp

lemma verify_count_panic (tcx : Ctxt) (items : LanguageItems) (h : needs_check tcx = true) :
    (verify tcx items).count Diagnostic.missingPanicHandler =
      (if ((globalMissing tcx).contains LangItem.PanicImpl && tcx.required LangItem.PanicImpl
          && !(require items LangItem.PanicImpl)) = true then 1 else 0) := by
  rw [verify_eq tcx items h]
  simp only [List.count_append, count_dE_panic, count_dE_ehp, count_dE_ehcti, count_dE_oom]
  simp

lemma verify_count_alloc (tcx : Ctxt) (items : LanguageItems) (h : needs_check tcx = true) :
    (verify tcx items).count Diagnostic.missingAllocErrorHandler =
      (if ((globalMissing tcx).contains LangItem.Oom && tcx.required LangItem.Oom
          && !(require items LangItem.Oom) && !tcx.default_alloc_error_handler) = true
       then 1 else 0) := by
  rw [verify_eq tcx items h]
  simp only [List.count_append, count_dE_panic, count_dE_ehp, count_dE_ehcti, count_dE_oom]
  simp

lemma verify_count_ehp (tcx : Ctxt) (items : LanguageItems) (h : needs_check tcx = true) :
    (verify tcx items).count (Diagnostic.missingLangItem "eh_personality") =
      (if ((globalMissing tcx).contains LangItem.EhPersonality
          && tcx.required LangItem.EhPersonality
          && !(require items LangItem.EhPersonality)) = true then 1 else 0) := by
  rw [verify_eq tcx items h]
  simp only [List.count_append, count_dE_panic, count_dE_ehp, count_dE_ehcti, count_dE_oom]
  simp

lemma verify_count_ehcti (tcx : Ctxt) (items : LanguageItems) (h : needs_check tcx = true) :
    (verify tcx items).count (Diagnostic.missingLangItem "eh_catch_typeinfo") =
      (if ((globalMissing tcx).contains LangItem.EhCatchTypeinfo
          && tcx.required LangItem.EhCatchTypeinfo
          && !(require items LangItem.EhCatchTypeinfo)) = true then 1 else 0) := by
  rw [verify_eq tcx items h]
  simp only [List.count_append, count_dE_panic, count_dE_ehp, count_dE_ehcti, count_dE_oom]
  simp

def noItems : LanguageItems := { defined := [], missing := [] }

def c1tcx : Ctxt :=
  { crate_types := [CrateType.Executable]
    target_os := "linux"
    default_alloc_error_handler := false
    foreign_items := []
    crates := []
    missing_lang_items := fun _ => []
    required := fun _ => true }

/-- Claim C1 counterexample: in a final-executable session with no
dependencies, `check_crate` puts `EhPersonality` into the unit's local
missing list, yet the set `verify` checks membership in (built from
dependency crates only) does not contain it — the local list is not merged
into the validator's set. -/
theorem weak_C1_counterexample :
    needs_check c1tcx = true ∧
    LangItem.EhPersonality ∈ (check_crate c1tcx noItems).1.missing ∧
    LangItem.EhPersonality ∉ globalMissing c1tcx := by decide

/-- Claim C1 (amended): the GlobalMissingSet consulted by the validator is
exactly the union of the dependency units' missing lists — a hook is in it
iff some transitively linked dependency reports it missing. The current
unit's local missing list is not merged in; it is only published for
downstream units. -/
theorem weak_C1_amended (tcx : Ctxt) (x : LangItem) :
    x ∈ globalMissing tcx ↔ ∃ c ∈ tcx.crates, x ∈ tcx.missing_lang_items c :=
  mem_globalMissing tcx x

def c2tcx : Ctxt :=
  { c1tcx with crate_types := [CrateType.Rlib]
               foreign_items := [{ langAttr := some "not_a_real_hook", span := 7 }] }

/-- Claim C2 counterexample: a session whose only requested artifact kind is
`Rlib` still emits an `UnknownHookName` (E0264) diagnostic for a foreign
item with an unrecognized hook-name attribute, so the pass does not emit
zero diagnostics of any kind on Rlib-only sessions. -/
theorem weak_C2_counterexample :
    c2tcx.crate_types = [CrateType.Rlib] ∧
    (check_crate c2tcx noItems).2 = [Diagnostic.unknownLangItem "not_a_real_hook" 7] := by
  decide

/-- Claim C2 (amended): for every session whose requested artifact kinds are
all `Rlib`, the validator (`verify`) emits zero diagnostics no matter the
missing hooks, and the only diagnostics `check_crate` can produce are the
`UnknownHookName` ones from the foreign-item scan, which runs before the
artifact gate. -/
theorem weak_C2_amended (tcx : Ctxt) (h : ∀ k ∈ tcx.crate_types, k = CrateType.Rlib) :
    (∀ items : LanguageItems, verify tcx items = []) ∧
    (∀ items : LanguageItems, (check_crate tcx items).2 =
      (scanForeignFrom (injectImplicit tcx items, []) tcx.foreign_items).2) := by
  have hnc : needs_check tcx = false := by
    unfold needs_check
    rw [List.any_eq_false]
    intro k hk
    rw [h k hk]
    decide
  constructor
  · intro items
    unfold verify
    rw [hnc]
    rfl
  · intro items
    have hv : verify tcx (scanForeignFrom (injectImplicit tcx items, []) tcx.foreign_items).1 = [] := by
      unfold verify
      rw [hnc]
      rfl
    show (scanForeignFrom (injectImplicit tcx items, []) tcx.foreign_items).2
        ++ verify tcx (scanForeignFrom (injectImplicit tcx items, []) tcx.foreign_items).1 =
      (scanForeignFrom (injectImplicit tcx items, []) tcx.foreign_items).2
    rw [hv, List.append_nil]

/-- Claim C2 witness: the amended theorem applied to a concrete Rlib-only
session containing an unknown hook name. -/
theorem weak_C2_amended_witness :
    (check_crate c2tcx noItems).2 =
      (scanForeignFrom (injectImplicit c2tcx noItems, []) c2tcx.foreign_items).2 :=
  (weak_C2_amended c2tcx (by decide)).2 noItems

def c3tcx : Ctxt :=
  { c1tcx with crate_types := [CrateType.Rlib]
               foreign_items := [{ langAttr := some "eh_personality", span := 3 }] }

/-- Claim C3 counterexample: with no local definition of `EhPersonality` and
a foreign item declaring the `eh_personality` hook, `check_crate` pushes the
hook twice — once by the implicit injection and once by the scan — so the
unit's missing list holds a duplicate. -/
theorem weak_C3_counterexample :
    (check_crate c3tcx noItems).1.missing = [LangItem.EhPersonality, LangItem.EhPersonality] ∧
    ¬ (check_crate c3tcx noItems).1.missing.Nodup := by decide

/-- Claim C3 (amended): the per-unit missing list is a vector that can
repeat a hook; the no-duplicate guarantee holds for the aggregated set the
validator consumes, which contains every hook at most once. -/
theorem weak_C3_amended (tcx : Ctxt) : (globalMissing tcx).Nodup :=
  nodup_globalMissing tcx

def c4tcx : Ctxt :=
  { c1tcx with default_alloc_error_handler := true
               crates := [0]
               missing_lang_items := fun _ => [LangItem.Oom] }

/-- Claim C4 counterexample: with the allocation-error-handler relaxation
flag enabled, the out-of-memory hook can be in the global missing set,
mandatory, and locally unresolved, while the validator emits zero
`MissingAllocErrorHandler` diagnostics — the claim's three conditions are
not sufficient for a diagnostic. -/
theorem weak_C4_counterexample :
    needs_check c4tcx = true ∧
    (globalMissing c4tcx).contains LangItem.Oom = true ∧
    c4tcx.required LangItem.Oom = true ∧
    require noItems LangItem.Oom = false ∧
    (verify c4tcx noItems).count Diagnostic.missingAllocErrorHandler = 0 := by decide

/-- Claim C4 (amended): when the check runs, each catalog entry yields
exactly one diagnostic iff its hook is in the global missing set, mandatory,
and not locally resolved — except the out-of-memory hook, whose diagnostic
additionally requires the relaxation flag to be disabled. The kinds are
`MissingPanicHandler` for the panic hook, `MissingAllocErrorHandler` for the
out-of-memory hook, and `MissingLangItem` with the catalog name otherwise;
the counts are independent, so several missing hooks each get their own
diagnostic in one pass. -/
theorem weak_C4_amended (tcx : Ctxt) (items : LanguageItems) (h : needs_check tcx = true) :
    (verify tcx items).count Diagnostic.missingPanicHandler =
      (if ((globalMissing tcx).contains LangItem.PanicImpl && tcx.required LangItem.PanicImpl
          && !(require items LangItem.PanicImpl)) = true then 1 else 0)
    ∧ (verify tcx items).count Diagnostic.missingAllocErrorHandler =
      (if ((globalMissing tcx).contains LangItem.Oom && tcx.required LangItem.Oom
          && !(require items LangItem.Oom) && !tcx.default_alloc_error_handler) = true
       then 1 else 0)
    ∧ (verify tcx items).count (Diagnostic.missingLangItem "eh_personality") =
      (if ((globalMissing tcx).contains LangItem.EhPersonality
          && tcx.required LangItem.EhPersonality
          && !(require items LangItem.EhPersonality)) = true then 1 else 0)
    ∧ (verify tcx items).count (Diagnostic.missingLangItem "eh_catch_typeinfo") =
      (if ((globalMissing tcx).contains LangItem.EhCatchTypeinfo
          && tcx.required LangItem.EhCatchTypeinfo
          && !(require items LangItem.EhCatchTypeinfo)) = true then 1 else 0) :=
  ⟨verify_count_panic tcx items h, verify_count_alloc tcx items h,
   verify_count_ehp tcx items h, verify_count_ehcti tcx items h⟩

def c4wtcx : Ctxt :=
  { c1tcx with crates := [0]
               missing_lang_items := fun _ =>
                 [LangItem.PanicImpl, LangItem.EhPersonality, LangItem.Oom] }

/-- Claim C4 witness: the amended theorem applied to a session whose single
dependency is missing the panic, exception-personality, and out-of-memory
hooks, giving one diagnostic of each corresponding kind. -/
theorem weak_C4_amended_witness :
    (verify c4wtcx noItems).count Diagnostic.missingPanicHandler = 1 ∧
    (verify c4wtcx noItems).count Diagnostic.missingAllocErrorHandler = 1 ∧
    (verify c4wtcx noItems).count (Diagnostic.missingLangItem "eh_personality") = 1 ∧
    (verify c4wtcx noItems).count (Diagnostic.missingLangItem "eh_catch_typeinfo") = 0 := by
  obtain ⟨h1, h2, h3, h4⟩ := weak_C4_amended c4wtcx noItems (by decide)
  exact ⟨h1.trans (by decide), h2.trans (by decide), h3.trans (by decide), h4.trans (by decide)⟩

/-- Claim C5: the implicit injection step adds `EhPersonality` to the
unit's missing list exactly when it is not locally defined, on every target;
it adds `EhCatchTypeinfo` exactly when the target operating system is
`emscripten` and the hook is not locally defined — on any other target the
injection never adds it. -/
theorem weak_C5 (tcx : Ctxt) (items : LanguageItems) :
    (LangItem.EhPersonality ∈ (injectImplicit tcx items).missing ↔
      require items LangItem.EhPersonality = false ∨ LangItem.EhPersonality ∈ items.missing) ∧
    (LangItem.EhCatchTypeinfo ∈ (injectImplicit tcx items).missing ↔
      (tcx.target_os = "emscripten" ∧ require items LangItem.EhCatchTypeinfo = false) ∨
        LangItem.EhCatchTypeinfo ∈ items.missing) := by
  by_cases h2 : tcx.target_os = "emscripten" <;>
  by_cases h1 : LangItem.EhPersonality ∈ items.defined <;>
  by_cases h3 : LangItem.EhCatchTypeinfo ∈ items.defined <;>
  simp [injectImplicit, require, h1, h2, h3]

/-- Claim C6: scanning a foreign item whose hook-name attribute the catalog
does not resolve appends exactly one `UnknownHookName` diagnostic carrying
that name and the item's span, leaves the language-item table and missing
list untouched, and the remaining foreign items are still scanned from that
state. -/
theorem weak_C6 (acc : LanguageItems × List Diagnostic) (fis : List ForeignItem)
    (fi : ForeignItem) (name : String)
    (h1 : fi.langAttr = some name) (h2 : weakItemsGet name = none) :
    scanForeignFrom acc (fi :: fis) =
      scanForeignFrom (acc.1, acc.2 ++ [Diagnostic.unknownLangItem name fi.span]) fis := by
  simp [scanForeignFrom, scanForeignItem, h1, h2]

def c6fi : ForeignItem := { langAttr := some "not_a_real_hook", span := 5 }

def c6rest : List ForeignItem := [{ langAttr := some "oom", span := 6 }]

/-- Claim C6 witness: the theorem applied to the unknown name
`"not_a_real_hook"` followed by a further foreign item. -/
theorem weak_C6_witness :
    scanForeignFrom (noItems, []) (c6fi :: c6rest) =
      scanForeignFrom (noItems, [Diagnostic.unknownLangItem "not_a_real_hook" 5]) c6rest :=
  weak_C6 (noItems, []) c6rest c6fi "not_a_real_hook" (by decide) (by decide)

/-- Claim C7: when the out-of-memory hook is in the global missing set,
mandatory, and not locally defined, the validator emits zero
`MissingAllocErrorHandler` diagnostics if the relaxation flag is enabled and
exactly one if it is disabled. -/
theorem weak_C7 (tcx : Ctxt) (items : LanguageItems) (h : needs_check tcx = true)
    (hmem : (globalMissing tcx).contains LangItem.Oom = true)
    (hreq : tcx.required LangItem.Oom = true)
    (hdef : require items LangItem.Oom = false) :
    (verify tcx items).count Diagnostic.missingAllocErrorHandler =
      (if tcx.default_alloc_error_handler then 0 else 1) := by
  cases hfl : tcx.default_alloc_error_handler <;>
  rw [verify_count_alloc tcx items h, hmem, hreq, hdef, hfl] <;> rfl

def c7tcx : Ctxt :=
  { c1tcx with crates := [0]
               missing_lang_items := fun _ => [LangItem.Oom] }

/-- Claim C7 witness: one diagnostic with the flag disabled, zero with it
enabled, on concrete sessions whose dependency is missing the out-of-memory
hook. -/
theorem weak_C7_witness :
    (verify c7tcx noItems).count Diagnostic.missingAllocErrorHandler = 1 ∧
    (verify c4tcx noItems).count Diagnostic.missingAllocErrorHandler = 0 := by
  constructor
  · exact (weak_C7 c7tcx noItems (by decide) (by decide) (by decide) (by decide)).trans
      (by decide)
  · exact (weak_C7 c4tcx noItems (by decide) (by decide) (by decide) (by decide)).trans
      (by decide)

/-- Claim C8: the check runs iff some requested artifact kind is
final or loadable (executable, dylib, cdylib, staticlib, proc-macro), and
when no kind requires it `verify` returns no diagnostics at all. -/
theorem weak_C8 (tcx : Ctxt) (items : LanguageItems) :
    (needs_check tcx = true ↔ ∃ k ∈ tcx.crate_types,
      k ∈ [CrateType.Executable, CrateType.Dylib, CrateType.Cdylib,
           CrateType.Staticlib, CrateType.ProcMacro]) ∧
    (needs_check tcx = false → verify tcx items = []) := by
  constructor
  · unfold needs_check
    rw [List.any_eq_true]
    refine exists_congr fun k => and_congr_right fun _ => ?_
    cases k <;> simp [needsCheckKind]
  · intro hf
    unfold verify
    rw [hf]
    rfl

def c8tcx : Ctxt :=
  { c1tcx with crate_types := [CrateType.Rlib]
               crates := [0]
               missing_lang_items := fun _ => [LangItem.PanicImpl, LangItem.EhPersonality] }

/-- Claim C8 witness: an Rlib-only session with missing hooks in its
dependency yields no diagnostics, and an executable session passes the
gate. -/
theorem weak_C8_witness :
    verify c8tcx noItems = [] ∧ needs_check c1tcx = true :=
  ⟨(weak_C8 c8tcx noItems).2 (by decide),
   (weak_C8 c1tcx noItems).1.mpr ⟨CrateType.Executable, by decide, by decide⟩⟩

/-- Claim C9: validation is a pure function of the finalized global missing
set (through membership only), the mandatoriness predicate, the relaxation
flag, the requested crate types, and the unit's local definitions: two
contexts agreeing on those produce identical diagnostic lists, whatever
their foreign items, local missing vectors, target names, or dependency-list
representations. Running it twice on the same inputs therefore yields the
same multiset, and no input is mutated since all data is immutable here. -/
theorem weak_C9 (tcx1 tcx2 : Ctxt) (items1 items2 : LanguageItems)
    (hct : tcx1.crate_types = tcx2.crate_types)
    (hf : tcx1.default_alloc_error_handler = tcx2.default_alloc_error_handler)
    (hr : ∀ it : LangItem, tcx1.required it = tcx2.required it)
    (hd : ∀ it : LangItem, require items1 it = require items2 it)
    (hgm : ∀ it : LangItem,
      (globalMissing tcx1).contains it = (globalMissing tcx2).contains it) :
    verify tcx1 items1 = verify tcx2 items2 :=
  verify_congr tcx1 tcx2 items1 items2 hct hf
    (fun p _ => hr p.2) (fun p _ => hd p.2) (fun p _ => hgm p.2)

def c9tcxA : Ctxt :=
  { c1tcx with crates := [0, 1]
               missing_lang_items := fun c =>
                 if c = 0 then [LangItem.PanicImpl] else [LangItem.PanicImpl, LangItem.Oom] }

def c9tcxB : Ctxt :=
  { c1tcx with target_os := "emscripten"
               foreign_items := [{ langAttr := some "not_a_real_hook", span := 1 }]
               crates := [5]
               missing_lang_items := fun _ => [LangItem.Oom, LangItem.PanicImpl] }

def c9items : LanguageItems := { defined := [], missing := [LangItem.Start] }

/-- Claim C9 witness: two concrete contexts with permuted and split
dependency missing lists and different scanners' inputs produce the same
diagnostics. -/
theorem weak_C9_witness : verify c9tcxA noItems = verify c9tcxB c9items :=
  weak_C9 c9tcxA c9tcxB noItems c9items rfl rfl (fun _ => rfl)
    (fun it => by cases it <;> rfl) (fun it => by cases it <;> rfl)

/-- The context obtained by linking one more dependency unit, numbered `n`,
whose published missing list is `l`. -/
def withExtraDep (tcx : Ctxt) (n : Nat) (l : List LangItem) : Ctxt :=
  { tcx with
      crates := tcx.crates ++ [n]
      missing_lang_items := fun c => if c = n then l else tcx.missing_lang_items c }

/-- Claim C10: a hook reported missing by a dependency but absent from the
weak-hook catalog is never diagnosed: linking one more dependency whose
missing list holds only that hook leaves the validator's output unchanged,
whatever its mandatoriness or local status. -/
theorem weak_C10 (tcx : Ctxt) (items : LanguageItems) (h : LangItem) (n : Nat)
    (hcat : h ∉ WEAK_ITEMS_REFS.map Prod.snd)
    (hn : n ∉ tcx.crates) :
    verify (withExtraDep tcx n [h]) items = verify tcx items := by
  have hmem : ∀ x : LangItem, x ≠ h →
      (x ∈ globalMissing (withExtraDep tcx n [h]) ↔ x ∈ globalMissing tcx) := by
    intro x hx
    rw [mem_globalMissing, mem_globalMissing]
    constructor
    · rintro ⟨c, hc, hm⟩
      have hc2 : c ∈ tcx.crates ++ [n] := hc
      rcases List.mem_append.mp hc2 with hc3 | hc3
      · refine ⟨c, hc3, ?_⟩
        have hne : c ≠ n := fun e => hn (e ▸ hc3)
        have hm2 : x ∈ (if c = n then [h] else tcx.missing_lang_items c) := hm
        rwa [if_neg hne] at hm2
      · have hcn : c = n := by simpa using hc3
        subst hcn
        have hm2 : x ∈ (if c = c then [h] else tcx.missing_lang_items c) := hm
        rw [if_pos rfl] at hm2
        simp only [List.mem_singleton] at hm2
        exact absurd hm2 hx
    · rintro ⟨c, hc, hm⟩
      have hne : c ≠ n := fun e => hn (e ▸ hc)
      refine ⟨c, List.mem_append_left _ hc, ?_⟩
      show x ∈ (if c = n then [h] else tcx.missing_lang_items c)
      rwa [if_neg hne]
  refine verify_congr (withExtraDep tcx n [h]) tcx items items rfl rfl
    (fun p _ => rfl) (fun p _ => rfl) ?_
  intro p hp
  have hne : p.2 ≠ h := by
    intro e
    exact hcat (e ▸ List.mem_map_of_mem Prod.snd hp)
  have hiff := hmem p.2 hne
  cases hb1 : (globalMissing (withExtraDep tcx n [h])).contains p.2 <;>
  cases hb2 : (globalMissing tcx).contains p.2
  · rfl
  · have hcontr := List.elem_iff.mpr (hiff.mpr (List.elem_iff.mp hb2))
    have hb1e : List.elem p.2 (globalMissing (withExtraDep tcx n [h])) = false := hb1
    rw [hb1e] at hcontr
    exact hcontr
  · have hcontr := List.elem_iff.mpr (hiff.mp (List.elem_iff.mp hb1))
    have hb2e : List.elem p.2 (globalMissing tcx) = false := hb2
    rw [hb2e] at hcontr
    exact hcontr.symm
  · rfl

def c10tcx : Ctxt :=
  { c1tcx with crates := [0]
               missing_lang_items := fun _ => [LangItem.PanicImpl] }

/-- Claim C10 witness: adding a dependency that misses the non-weak `Start`
item changes nothing about the diagnostics of a session missing the panic
hook. -/
theorem weak_C10_witness :
    verify (withExtraDep c10tcx 1 [LangItem.Start]) noItems = verify c10tcx noItems :=
  weak_C10 c10tcx noItems LangItem.Start 1 (by decide) (by decide)

end WeakLangItems
